import Mathlib

/-!
Verification of the MealVista OTP authentication backend.

The definitions below are a shallow embedding of the OTP store
(models/OTP.js, reproduced in OTP_COMPLETE_GUIDE.md), the in-memory rate
limiter and the route handlers of routes/otp-auth.js.  Timestamps are
natural numbers (milliseconds, as produced by Date.now()); the MongoDB
collection is a list of records carrying an explicit document id; the
JavaScript Map of the rate limiter is an association list.  Randomness
(Math.random) and bcrypt hashing are passed in as explicit parameters.
-/

namespace MealVista

/-- The `purpose` field of an OTP document: the schema enum
`[email_verification, password_reset]`. -/
inductive Purpose where
  | email_verification
  | password_reset
deriving DecidableEq, Repr

/-- One document of the OTP collection (otpSchema).  `id` plays the role of
the MongoDB `_id`; `expiresAt` and `createdAt` are absolute times in
milliseconds. -/
structure OTPRecord where
  id : Nat
  email : String
  otp : String
  purpose : Purpose
  attempts : Nat
  expiresAt : Nat
  verified : Bool
  createdAt : Nat
deriving DecidableEq, Repr

/-- The OTP collection. -/
abbrev OTPStore := List OTPRecord

/-- The filter `{ email, purpose, verified: false }` used both by
the deleteMany of `createOTP` and by the findOne of `verifyOTP`. -/
def otpMatches (email : String) (purpose : Purpose) (r : OTPRecord) : Bool :=
  decide (r.email = email ∧ r.purpose = purpose ∧ r.verified = false)

/-- Embedding of `findOne({email, purpose, verified:false}).sort({createdAt:-1})`:
the matching document with the greatest `createdAt` (the earliest such
document on ties, matching a stable descending sort).  `pickLatest` is the
accumulator step of that selection. -/
def pickLatest (acc : Option OTPRecord) (r : OTPRecord) : Option OTPRecord :=
  match acc with
  | none => some r
  | some b => if b.createdAt < r.createdAt then some r else some b

/-- The selected most-recent unverified document for (email, purpose). -/
def latestUnverified (store : OTPStore) (email : String) (purpose : Purpose) :
    Option OTPRecord :=
  (store.filter (otpMatches email purpose)).foldl pickLatest none

/-- Embedding of `deleteMany({ email, purpose, verified: false })`. -/
def deleteManyUnverified (store : OTPStore) (email : String) (purpose : Purpose) :
    OTPStore :=
  store.filter (fun r => !(otpMatches email purpose r))

/-- Embedding of `doc.deleteOne()`: remove the document with this id. -/
def deleteOne (store : OTPStore) (doc : OTPRecord) : OTPStore :=
  store.filter (fun x => decide (x.id ≠ doc.id))

/-- Embedding of `doc.save()`: write the (possibly mutated) document back by id. -/
def saveDoc (store : OTPStore) (doc : OTPRecord) : OTPStore :=
  store.map (fun x => if x.id = doc.id then doc else x)

/-- Embedding of `otpSchema.methods.isExpired`: `Date.now() > this.expiresAt`
(strict comparison in the source). -/
def isExpired (r : OTPRecord) (now : Nat) : Bool :=
  decide (now > r.expiresAt)

/-- Embedding of `otpSchema.methods.hasExceededAttempts`: `this.attempts >= 3`. -/
def hasExceededAttempts (r : OTPRecord) : Bool :=
  decide (r.attempts ≥ 3)

/-- The method `otpSchema.statics.generateOTP` computes
`Math.floor(100000 + Math.random() * 900000)`; the value of
`Math.random()` (a real in `[0,1)`) is the explicit argument `rnd`. -/
def generateOTPVal (rnd : ℚ) : Nat :=
  (Int.floor ((100000 : ℚ) + rnd * 900000)).toNat

/-- The `.toString()` applied to the generated number. -/
def generateOTPStr (rnd : ℚ) : String :=
  Nat.repr (generateOTPVal rnd)

/-- Which random source the running code draws from.  `mathRandom` is the
general-purpose PRNG `Math.random`; `cryptoRandom` stands for a
cryptographically strong source such as `crypto.randomInt`. -/
inductive RandomSource where
  | mathRandom
  | cryptoRandom
deriving DecidableEq, Repr

/-- The source actually used by `otpSchema.statics.generateOTP`: the body is
`Math.floor(100000 + Math.random() * 900000).toString()`, i.e. `Math.random`. -/
def generateOTPSource : RandomSource := RandomSource.mathRandom

/-- Embedding of `otpSchema.statics.createOTP(email, purpose, expiryMinutes)`: delete all
unverified documents for (email, purpose), then insert a fresh document with
`attempts = 0`, `verified = false`, `expiresAt = now + expiryMinutes*60*1000`.
The generated code and the fresh document id are explicit arguments.
Returns the new document together with the updated collection. -/
def createOTP (store : OTPStore) (email : String) (purpose : Purpose)
    (expiryMinutes : Nat) (code : String) (newId now : Nat) :
    OTPRecord × OTPStore :=
  let cleaned := deleteManyUnverified store email purpose
  let otpDoc : OTPRecord :=
    { id := newId, email := email, otp := code, purpose := purpose,
      attempts := 0, expiresAt := now + expiryMinutes * 60 * 1000,
      verified := false, createdAt := now }
  (otpDoc, cleaned ++ [otpDoc])

/-- The object returned by `otpSchema.statics.verifyOTP`; branches that do not
set `attemptsRemaining` are modelled with `none`. -/
structure VerifyResult where
  success : Bool
  message : String
  attemptsRemaining : Option Nat
deriving DecidableEq, Repr

/-- Embedding of `otpSchema.statics.verifyOTP(email, otp, purpose)`: fetch the most recent
unverified document, then check expiry, then the attempt cap, then compare the
code; mismatch increments `attempts` and saves, match sets `verified` and
increments `attempts` and saves.  Returns the result together with the updated
collection. -/
def verifyOTP (store : OTPStore) (email code : String) (purpose : Purpose)
    (now : Nat) : VerifyResult × OTPStore :=
  match latestUnverified store email purpose with
  | none =>
      ({ success := false, message := "OTP not found or already used",
         attemptsRemaining := none }, store)
  | some otpDoc =>
      if isExpired otpDoc now then
        ({ success := false,
           message := "OTP has expired. Please request a new one",
           attemptsRemaining := none }, deleteOne store otpDoc)
      else if hasExceededAttempts otpDoc then
        ({ success := false,
           message := "Too many failed attempts. Please request a new OTP",
           attemptsRemaining := none }, deleteOne store otpDoc)
      else if otpDoc.otp ≠ code then
        let updated := { otpDoc with attempts := otpDoc.attempts + 1 }
        ({ success := false,
           message := "Invalid OTP. " ++ toString (3 - updated.attempts) ++
             " attempts remaining",
           attemptsRemaining := some (3 - updated.attempts) },
         saveDoc store updated)
      else
        let updated :=
          { otpDoc with verified := true, attempts := otpDoc.attempts + 1 }
        ({ success := true, message := "OTP verified successfully",
           attemptsRemaining := none }, saveDoc store updated)

/-- One value of the in-memory `rateLimitMap`: `{ count, resetTime }`. -/
structure RateLimitRecord where
  count : Nat
  resetTime : Nat
deriving DecidableEq, Repr

/-- The JavaScript `Map` of the rate limiter, modelled as an association list
with unique keys maintained by `mapSet`. -/
abbrev RateLimitMap := List (String × RateLimitRecord)

/-- Embedding of `rateLimitMap.get(key)`. -/
def mapGet (m : RateLimitMap) (key : String) : Option RateLimitRecord :=
  (m.find? (fun p => decide (p.1 = key))).map Prod.snd

/-- Embedding of `rateLimitMap.set(key, v)`: overwrite the entry for `key` (insertion order
is unobservable through `mapGet`). -/
def mapSet (m : RateLimitMap) (key : String) (v : RateLimitRecord) :
    RateLimitMap :=
  (key, v) :: m.filter (fun p => decide (p.1 ≠ key))

/-- The object returned by `checkRateLimit`; `remaining` is an integer because
the source computes `maxAttempts - count` in JavaScript arithmetic. -/
structure RateLimitResult where
  allowed : Bool
  remaining : Int
  resetIn : Option Nat
deriving DecidableEq, Repr

/-- Embedding of `checkRateLimit(key, maxAttempts, windowMs)` from routes/otp-auth.js, with
`now = Date.now()` explicit.  `resetIn` is
`Math.ceil((record.resetTime - now) / 1000 / 60)`, i.e. the ceiling of the
millisecond difference divided by 60000.  Returns the result and the updated
map (the mutation of `record.count` is modelled by writing back the entry). -/
def checkRateLimit (m : RateLimitMap) (key : String)
    (maxAttempts windowMs now : Nat) : RateLimitResult × RateLimitMap :=
  match mapGet m key with
  | none =>
      ({ allowed := true, remaining := (maxAttempts : Int) - 1,
         resetIn := none },
       mapSet m key { count := 1, resetTime := now + windowMs })
  | some record =>
      if now > record.resetTime then
        ({ allowed := true, remaining := (maxAttempts : Int) - 1,
           resetIn := none },
         mapSet m key { count := 1, resetTime := now + windowMs })
      else if record.count ≥ maxAttempts then
        ({ allowed := false, remaining := 0,
           resetIn := some ((record.resetTime - now + 59999) / 60000) }, m)
      else
        ({ allowed := true,
           remaining := (maxAttempts : Int) - ((record.count : Int) + 1),
           resetIn := none },
         mapSet m key { record with count := record.count + 1 })

/-- Fold a sequence of `checkRateLimit` calls (same key and configuration) at
the given times over the map. -/
def applyCalls (m : RateLimitMap) (key : String) (maxAttempts windowMs : Nat)
    (times : List Nat) : RateLimitMap :=
  times.foldl (fun acc t => (checkRateLimit acc key maxAttempts windowMs t).2) m

/-- One document of the users collection, with the fields the OTP routes
touch. -/
structure UserRec where
  id : Nat
  name : String
  email : String
  password : String
  isEmailVerified : Bool
  isDeleted : Bool
  passwordResetAt : Option Nat
  failedLoginAttempts : Nat
  accountLockedUntil : Option Nat
deriving DecidableEq, Repr

/-- Embedding of `User.findOne({ email })`. -/
def findUser (users : List UserRec) (email : String) : Option UserRec :=
  users.find? (fun u => decide (u.email = email))

/-- Embedding of `user.save()`: write the mutated user back by id. -/
def saveUser (users : List UserRec) (u : UserRec) : List UserRec :=
  users.map (fun x => if x.id = u.id then u else x)

/-- The helper `isStrongPassword` from routes/otp-auth.js: length at least 8 and the
ASCII classes `[A-Z]`, `[a-z]`, `[0-9]` each present. -/
def isStrongPassword (password : String) : Bool :=
  decide (password.length ≥ 8) &&
  password.data.any (fun c => c.isUpper) &&
  password.data.any (fun c => c.isLower) &&
  password.data.any (fun c => c.isDigit)

/-- The normalization `email.toLowerCase().trim()` every handler applies:
lowercase each character, then strip leading and trailing whitespace
(implemented over the character list so that it evaluates). -/
def normalizeEmail (s : String) : String :=
  ⟨(((s.data.map Char.toLower).dropWhile Char.isWhitespace).reverse.dropWhile
      Char.isWhitespace).reverse⟩

/-- An HTTP response as the handlers produce it: status code and message. -/
structure RouteResponse where
  status : Nat
  message : String
deriving DecidableEq, Repr

/-- The email-dispatch segment of POST /signup/request-otp, starting at
`OTP.createOTP(normalizedEmail, email_verification, 1)`: on send failure the
handler runs `await otpDoc.deleteOne()` and answers 500; on success it answers
200.  `emailSendOk` is whether `sendVerificationEmail` resolved; the 500
message shown is the generic catch-all branch. -/
def signupRequestOtpIssue (store : OTPStore) (normalizedEmail code : String)
    (newId now : Nat) (emailSendOk : Bool) : RouteResponse × OTPStore :=
  let (otpDoc, store1) :=
    createOTP store normalizedEmail Purpose.email_verification 1 code newId now
  if emailSendOk then
    ({ status := 200,
       message := "OTP sent to your email. Please verify within 1 minute" },
     store1)
  else
    ({ status := 500,
       message := "Failed to send verification email. Please try again." },
     deleteOne store1 otpDoc)

/-- The email-dispatch segment of POST /resend-otp, starting at
`OTP.createOTP(normalizedEmail, purpose, 1)`: a send failure is only logged
(`console.error`) and the handler still answers 200 "OTP sent successfully"
with the new document left in place. -/
def resendOtpIssue (store : OTPStore) (normalizedEmail code : String)
    (purpose : Purpose) (newId now : Nat) (emailSendOk : Bool) :
    RouteResponse × OTPStore :=
  let (_otpDoc, store1) := createOTP store normalizedEmail purpose 1 code newId now
  ({ status := 200, message := "OTP sent successfully" }, store1)

/-- The email-dispatch segment of POST /forgot-password/request-otp, starting
at `OTP.createOTP(normalizedEmail, password_reset, 1)`: a send failure is
only logged and the handler still answers 200 with the document left in
place. -/
def forgotPasswordRequestOtpIssue (store : OTPStore)
    (normalizedEmail code : String) (newId now : Nat) (emailSendOk : Bool) :
    RouteResponse × OTPStore :=
  let (_otpDoc, store1) :=
    createOTP store normalizedEmail Purpose.password_reset 1 code newId now
  ({ status := 200, message := "Password reset OTP sent to your email" }, store1)

/-- The unverified-user branch of POST /login: it runs
`OTP.createOTP(normalizedEmail, email_verification, 10)`, tries to send the
email (a failure is only logged), and answers 403 with
`requiresVerification: true` either way, with the document left in place. -/
def loginUnverifiedResend (store : OTPStore) (normalizedEmail code : String)
    (newId now : Nat) (emailSendOk : Bool) : RouteResponse × OTPStore :=
  let (_otpDoc, store1) :=
    createOTP store normalizedEmail Purpose.email_verification 10 code newId now
  ({ status := 403,
     message :=
       "Email not verified. A new verification OTP has been sent to your email" },
   store1)

/-- A signed JWT payload as issued by /forgot-password/verify-otp:
`jwt.sign` over the payload (email, purpose password_reset) with JWT_SECRET and a 15 minute expiry.
`signedWith` records the signing secret and `exp` the absolute expiry time. -/
structure ResetToken where
  email : String
  purpose : String
  exp : Nat
  signedWith : String
deriving DecidableEq, Repr

/-- Embedding of `jwt.verify(resetToken, JWT_SECRET)`: returns the decoded payload when the
signature matches the secret and the token is not expired, otherwise throws
(modelled as `none`). -/
def jwtVerify (token : ResetToken) (secret : String) (now : Nat) :
    Option ResetToken :=
  if token.signedWith = secret ∧ now < token.exp then some token else none

/-- POST /reset-password: require both fields, check password strength, verify
the reset token, require that decoded.purpose equals password_reset, look the user
up, reject deleted accounts, then store the new password hash, stamp
`passwordResetAt`, clear `failedLoginAttempts` and `accountLockedUntil`.
`hash` stands for `bcrypt.hash(·, 10)`; an absent `resetToken` field is
modelled by `none`. -/
def resetPassword (users : List UserRec) (secret : String)
    (token : Option ResetToken) (newPassword : String)
    (hash : String → String) (now : Nat) : RouteResponse × List UserRec :=
  match token with
  | none =>
      ({ status := 400,
         message := "Reset token and new password are required" }, users)
  | some tok =>
      if newPassword = "" then
        ({ status := 400,
           message := "Reset token and new password are required" }, users)
      else if !isStrongPassword newPassword then
        ({ status := 400,
           message := "Password must be at least 8 characters and include uppercase, lowercase, and a number" },
         users)
      else
        match jwtVerify tok secret now with
        | none =>
            ({ status := 401, message := "Invalid or expired reset token" },
             users)
        | some decoded =>
            if decoded.purpose ≠ "password_reset" then
              ({ status := 401, message := "Invalid reset token" }, users)
            else
              match findUser users decoded.email with
              | none => ({ status := 404, message := "User not found" }, users)
              | some user =>
                  if user.isDeleted then
                    ({ status := 403,
                       message := "This account has been deleted" }, users)
                  else
                    let updated :=
                      { user with
                        password := hash newPassword,
                        passwordResetAt := some now,
                        failedLoginAttempts := 0,
                        accountLockedUntil := none }
                    ({ status := 200,
                       message := "Password reset successfully. You can now login with your new password" },
                     saveUser users updated)

/-- The response of POST /signup/verify-otp (`attemptsRemaining` forwarded
from the store on failure). -/
structure SignupVerifyResponse where
  status : Nat
  message : String
  attemptsRemaining : Option Nat
deriving DecidableEq, Repr

/-- POST /signup/verify-otp: require all fields, normalize the email, run
`OTP.verifyOTP` FIRST, surface its failure with 400, and only then check
whether a verified user already owns the email (400 "Email already
registered"); otherwise update the unverified user row or create a new one,
and answer 201.  `hash` stands for `bcrypt.hash(·, 10)`, `newUserId` for the
id MongoDB would assign on `User.create`.  Returns the response, the user
collection and the OTP collection. -/
def signupVerifyOtp (users : List UserRec) (otps : OTPStore)
    (name email password code : String) (hash : String → String)
    (newUserId now : Nat) :
    SignupVerifyResponse × List UserRec × OTPStore :=
  if name = "" ∨ email = "" ∨ password = "" ∨ code = "" then
    ({ status := 400, message := "All fields are required",
       attemptsRemaining := none }, users, otps)
  else
    let normalizedEmail := normalizeEmail email
    let (res, otps1) :=
      verifyOTP otps normalizedEmail code Purpose.email_verification now
    if res.success = false then
      ({ status := 400, message := res.message,
         attemptsRemaining := res.attemptsRemaining }, users, otps1)
    else
      match findUser users normalizedEmail with
      | some user =>
          if user.isEmailVerified then
            ({ status := 400, message := "Email already registered",
               attemptsRemaining := none }, users, otps1)
          else
            let updated :=
              { user with
                name := name, password := hash password,
                isEmailVerified := true }
            ({ status := 201, message := "Account created successfully",
               attemptsRemaining := none }, saveUser users updated, otps1)
      | none =>
          let created : UserRec :=
            { id := newUserId, name := name, email := normalizedEmail,
              password := hash password, isEmailVerified := true,
              isDeleted := false, passwordResetAt := none,
              failedLoginAttempts := 0, accountLockedUntil := none }
          ({ status := 201, message := "Account created successfully",
             attemptsRemaining := none }, users ++ [created], otps1)

/-! Helper lemmas about the store operations. -/

theorem foldl_pickLatest_eq_some (l : List OTPRecord) (acc : Option OTPRecord)
    (r : OTPRecord) (h : l.foldl pickLatest acc = some r) :
    acc = some r ∨ r ∈ l := by
  induction l generalizing acc with
  | nil => exact Or.inl h
  | cons x xs ih =>
      simp only [List.foldl_cons] at h
      rcases ih _ h with h1 | h1
      · cases acc with
        | none =>
            simp only [pickLatest, Option.some.injEq] at h1
            exact Or.inr (by simp [h1])
        | some b =>
            simp only [pickLatest] at h1
            by_cases hc : b.createdAt < x.createdAt
            · simp only [if_pos hc, Option.some.injEq] at h1
              exact Or.inr (by simp [h1])
            · simp only [if_neg hc] at h1
              exact Or.inl h1
      · exact Or.inr (List.mem_cons_of_mem _ h1)

theorem latestUnverified_mem {store : OTPStore} {email : String}
    {purpose : Purpose} {r : OTPRecord}
    (h : latestUnverified store email purpose = some r) :
    r ∈ store ∧ otpMatches email purpose r = true := by
  unfold latestUnverified at h
  rcases foldl_pickLatest_eq_some _ _ _ h with h1 | h1
  · simp at h1
  · exact List.mem_filter.1 h1

theorem latestUnverified_eq_none {store : OTPStore} {email : String}
    {purpose : Purpose}
    (h : ∀ x ∈ store, otpMatches email purpose x = false) :
    latestUnverified store email purpose = none := by
  unfold latestUnverified
  have hf : store.filter (otpMatches email purpose) = [] := by
    rw [List.filter_eq_nil_iff]
    intro a ha
    simp [h a ha]
  rw [hf]
  rfl

theorem createOTP_fst (store : OTPStore) (email : String) (purpose : Purpose)
    (expiryMinutes : Nat) (code : String) (newId now : Nat) :
    (createOTP store email purpose expiryMinutes code newId now).1 =
      { id := newId, email := email, otp := code, purpose := purpose,
        attempts := 0, expiresAt := now + expiryMinutes * 60 * 1000,
        verified := false, createdAt := now } := rfl

theorem createOTP_snd (store : OTPStore) (email : String) (purpose : Purpose)
    (expiryMinutes : Nat) (code : String) (newId now : Nat) :
    (createOTP store email purpose expiryMinutes code newId now).2 =
      deleteManyUnverified store email purpose ++
        [(createOTP store email purpose expiryMinutes code newId now).1] := rfl

theorem createOTP_latest (store : OTPStore) (email : String) (purpose : Purpose)
    (expiryMinutes : Nat) (code : String) (newId now : Nat) :
    latestUnverified (createOTP store email purpose expiryMinutes code newId now).2
        email purpose =
      some (createOTP store email purpose expiryMinutes code newId now).1 := by
  unfold latestUnverified
  rw [createOTP_snd, List.filter_append]
  have h1 : (deleteManyUnverified store email purpose).filter
      (otpMatches email purpose) = [] := by
    rw [List.filter_eq_nil_iff]
    intro a ha
    have h2 := (List.mem_filter.1 ha).2
    simp only [Bool.not_eq_true'] at h2
    simp [h2]
  rw [h1]
  have h3 : otpMatches email purpose
      (createOTP store email purpose expiryMinutes code newId now).1 = true := by
    simp [otpMatches, createOTP_fst]
  simp [h3, pickLatest]

theorem mem_deleteOne {store : OTPStore} {doc x : OTPRecord} :
    x ∈ deleteOne store doc ↔ x ∈ store ∧ x.id ≠ doc.id := by
  unfold deleteOne
  rw [List.mem_filter]
  simp

theorem mem_saveDoc {store : OTPStore} {doc x : OTPRecord}
    (h : x ∈ saveDoc store doc) :
    ∃ y ∈ store, x = if y.id = doc.id then doc else y := by
  unfold saveDoc at h
  rcases List.mem_map.1 h with ⟨y, hy, hxy⟩
  exact ⟨y, hy, hxy.symm⟩

theorem verifyOTP_of_none {store : OTPStore} {email : String}
    {purpose : Purpose} (code : String) (now : Nat)
    (h : latestUnverified store email purpose = none) :
    verifyOTP store email code purpose now =
      ({ success := false, message := "OTP not found or already used",
         attemptsRemaining := none }, store) := by
  unfold verifyOTP
  rw [h]

/-! Claim theorems. -/

/-- C2: `createOTP(identity, purpose, m)` first deletes every unverified
record for that (identity, purpose) pair and then inserts the new record, so
afterwards at most one unverified record exists for the pair (the new one),
every prior unverified record is gone from the store, and the code of any
earlier record (when it differs from the fresh code) no longer verifies, even
if that earlier record was otherwise unexpired. -/
theorem createOTP_single_unverified (store : OTPStore) (email : String)
    (purpose : Purpose) (expiryMinutes : Nat) (code : String) (newId now : Nat) :
    (∀ x ∈ (createOTP store email purpose expiryMinutes code newId now).2,
        otpMatches email purpose x = true →
        x = (createOTP store email purpose expiryMinutes code newId now).1) ∧
    (∀ x ∈ store, otpMatches email purpose x = true → x.id ≠ newId →
        x ∉ (createOTP store email purpose expiryMinutes code newId now).2) ∧
    (∀ x ∈ store, otpMatches email purpose x = true → x.otp ≠ code →
        (verifyOTP (createOTP store email purpose expiryMinutes code newId now).2
            email x.otp purpose now).1.success = false) := by
  refine ⟨?_, ?_, ?_⟩
  · intro x hx hm
    rw [createOTP_snd] at hx
    rcases List.mem_append.1 hx with h1 | h1
    · have h2 := (List.mem_filter.1 h1).2
      simp only [Bool.not_eq_true'] at h2
      rw [hm] at h2
      cases h2
    · simpa using h1
  · intro x _hx hm hid hmem
    rw [createOTP_snd] at hmem
    rcases List.mem_append.1 hmem with h1 | h1
    · have h2 := (List.mem_filter.1 h1).2
      simp only [Bool.not_eq_true'] at h2
      rw [hm] at h2
      cases h2
    · have h2 : x = (createOTP store email purpose expiryMinutes code newId now).1 := by
        simpa using h1
      rw [createOTP_fst] at h2
      exact hid (by rw [h2])
  · intro x _hx _hm hne
    have hl := createOTP_latest store email purpose expiryMinutes code newId now
    have hexp : isExpired
        (createOTP store email purpose expiryMinutes code newId now).1 now = false := by
      simp only [isExpired, decide_eq_false_iff_not]
      show ¬ now > now + expiryMinutes * 60 * 1000
      omega
    have hatt : hasExceededAttempts
        (createOTP store email purpose expiryMinutes code newId now).1 = false := by
      simp only [hasExceededAttempts, decide_eq_false_iff_not]
      show ¬ (0 ≥ 3)
      omega
    have hcode :
        (createOTP store email purpose expiryMinutes code newId now).1.otp ≠ x.otp :=
      fun hh => hne hh.symm
    unfold verifyOTP
    rw [hl]
    simp [hexp, hatt, hcode]

/-- Witness for C2 at a concrete store: the earlier code 111111 no longer
verifies after a new OTP 222222 is created for the same identity and
purpose. -/
theorem createOTP_single_unverified_witness :
    (verifyOTP
        (createOTP
          [{ id := 0, email := "a@gmail.com", otp := "111111",
             purpose := Purpose.email_verification, attempts := 0,
             expiresAt := 999999, verified := false, createdAt := 5 }]
          "a@gmail.com" Purpose.email_verification 1 "222222" 1 10).2
        "a@gmail.com" "111111" Purpose.email_verification 10).1.success = false :=
  (createOTP_single_unverified
      [{ id := 0, email := "a@gmail.com", otp := "111111",
         purpose := Purpose.email_verification, attempts := 0,
         expiresAt := 999999, verified := false, createdAt := 5 }]
      "a@gmail.com" Purpose.email_verification 1 "222222" 1 10).2.2
    { id := 0, email := "a@gmail.com", otp := "111111",
      purpose := Purpose.email_verification, attempts := 0,
      expiresAt := 999999, verified := false, createdAt := 5 }
    (by simp) (by decide) (by decide)

/-- C3: on an unverified, unexpired record with attempts below the maximum
(3 in the code), a wrong code increments `attempts` by exactly one, saves the
record, leaves `verified = false`, and fails reporting N attempts remaining
with N = 3 minus the incremented attempts value. -/
theorem verifyOTP_mismatch_increments (store : OTPStore) (email code : String)
    (purpose : Purpose) (now : Nat) (r : OTPRecord)
    (hfind : latestUnverified store email purpose = some r)
    (hexp : ¬ now > r.expiresAt)
    (hatt : r.attempts < 3)
    (hne : r.otp ≠ code) :
    (verifyOTP store email code purpose now).1.success = false ∧
    (verifyOTP store email code purpose now).1.attemptsRemaining =
      some (3 - (r.attempts + 1)) ∧
    (verifyOTP store email code purpose now).1.message =
      "Invalid OTP. " ++ toString (3 - (r.attempts + 1)) ++
        " attempts remaining" ∧
    (verifyOTP store email code purpose now).2 =
      saveDoc store { r with attempts := r.attempts + 1 } ∧
    (∀ x ∈ (verifyOTP store email code purpose now).2, x.id = r.id →
      x.attempts = r.attempts + 1 ∧ x.verified = false) := by
  have hm := (latestUnverified_mem hfind).2
  simp only [otpMatches, decide_eq_true_eq] at hm
  have hisexp : isExpired r now = false := by
    simp [isExpired, hexp]
  have hisatt : hasExceededAttempts r = false := by
    simp only [hasExceededAttempts, decide_eq_false_iff_not]
    omega
  have hv : verifyOTP store email code purpose now =
      ({ success := false,
         message := "Invalid OTP. " ++ toString (3 - (r.attempts + 1)) ++
           " attempts remaining",
         attemptsRemaining := some (3 - (r.attempts + 1)) },
       saveDoc store { r with attempts := r.attempts + 1 }) := by
    unfold verifyOTP
    rw [hfind]
    simp [hisexp, hisatt, hne]
  refine ⟨by rw [hv], by rw [hv], by rw [hv], by rw [hv], ?_⟩
  rw [hv]
  intro x hx hid
  rcases mem_saveDoc hx with ⟨y, _hy, hxy⟩
  by_cases hyid : y.id = r.id
  · rw [if_pos hyid] at hxy
    subst hxy
    exact ⟨rfl, hm.2.2⟩
  · rw [if_neg hyid] at hxy
    subst hxy
    exact absurd hid hyid

/-- Witness for C3: one wrong attempt on a fresh record fails and leaves
2 attempts remaining. -/
theorem verifyOTP_mismatch_increments_witness :
    (verifyOTP
        [{ id := 0, email := "a@gmail.com", otp := "123456",
           purpose := Purpose.email_verification, attempts := 0,
           expiresAt := 1000, verified := false, createdAt := 0 }]
        "a@gmail.com" "000000" Purpose.email_verification 500).1.success = false ∧
    (verifyOTP
        [{ id := 0, email := "a@gmail.com", otp := "123456",
           purpose := Purpose.email_verification, attempts := 0,
           expiresAt := 1000, verified := false, createdAt := 0 }]
        "a@gmail.com" "000000" Purpose.email_verification
        500).1.attemptsRemaining = some 2 := by
  have h := verifyOTP_mismatch_increments
    [{ id := 0, email := "a@gmail.com", otp := "123456",
       purpose := Purpose.email_verification, attempts := 0,
       expiresAt := 1000, verified := false, createdAt := 0 }]
    "a@gmail.com" "000000" Purpose.email_verification 500
    { id := 0, email := "a@gmail.com", otp := "123456",
      purpose := Purpose.email_verification, attempts := 0,
      expiresAt := 1000, verified := false, createdAt := 0 }
    rfl (by decide) (by decide) (by decide)
  exact ⟨h.1, h.2.1⟩

/-- C4: once `attempts` has reached the maximum (3), any verify call — even
with the correct code — deletes the record and fails with the
too-many-attempts message; when that record was the only unverified one for
the pair, every subsequent verify fails with the not-found message until a new
code is created. -/
theorem verifyOTP_max_attempts_locks (store : OTPStore) (email code : String)
    (purpose : Purpose) (now : Nat) (r : OTPRecord)
    (hfind : latestUnverified store email purpose = some r)
    (hexp : ¬ now > r.expiresAt)
    (hatt : r.attempts ≥ 3) :
    (verifyOTP store email code purpose now).1.success = false ∧
    (verifyOTP store email code purpose now).1.message =
      "Too many failed attempts. Please request a new OTP" ∧
    (verifyOTP store email code purpose now).2 = deleteOne store r ∧
    ((∀ x ∈ store, otpMatches email purpose x = true → x.id = r.id) →
      ∀ code2 now2,
        (verifyOTP (verifyOTP store email code purpose now).2
            email code2 purpose now2).1.success = false ∧
        (verifyOTP (verifyOTP store email code purpose now).2
            email code2 purpose now2).1.message =
          "OTP not found or already used") := by
  have hisexp : isExpired r now = false := by
    simp [isExpired, hexp]
  have hisatt : hasExceededAttempts r = true := by
    simp only [hasExceededAttempts, decide_eq_true_eq]
    omega
  have hv : verifyOTP store email code purpose now =
      ({ success := false,
         message := "Too many failed attempts. Please request a new OTP",
         attemptsRemaining := none }, deleteOne store r) := by
    unfold verifyOTP
    rw [hfind]
    simp [hisexp, hisatt]
  refine ⟨by rw [hv], by rw [hv], by rw [hv], ?_⟩
  intro huniq code2 now2
  have hnone : latestUnverified (verifyOTP store email code purpose now).2
      email purpose = none := by
    apply latestUnverified_eq_none
    intro x hx
    rw [hv] at hx
    rcases mem_deleteOne.1 hx with ⟨hxs, hxid⟩
    cases hb : otpMatches email purpose x with
    | false => rfl
    | true => exact absurd (huniq x hxs hb) hxid
  constructor
  · rw [verifyOTP_of_none code2 now2 hnone]
  · rw [verifyOTP_of_none code2 now2 hnone]

/-- Witness for C4: after the attempt budget is exhausted, even the correct
code 123456 fails and the record is gone. -/
theorem verifyOTP_max_attempts_locks_witness :
    (verifyOTP
        [{ id := 0, email := "a@gmail.com", otp := "123456",
           purpose := Purpose.email_verification, attempts := 3,
           expiresAt := 1000, verified := false, createdAt := 0 }]
        "a@gmail.com" "123456" Purpose.email_verification 500).1.success = false ∧
    (verifyOTP
        (verifyOTP
          [{ id := 0, email := "a@gmail.com", otp := "123456",
             purpose := Purpose.email_verification, attempts := 3,
             expiresAt := 1000, verified := false, createdAt := 0 }]
          "a@gmail.com" "123456" Purpose.email_verification 500).2
        "a@gmail.com" "123456" Purpose.email_verification 600).1.message =
      "OTP not found or already used" := by
  have h := verifyOTP_max_attempts_locks
    [{ id := 0, email := "a@gmail.com", otp := "123456",
       purpose := Purpose.email_verification, attempts := 3,
       expiresAt := 1000, verified := false, createdAt := 0 }]
    "a@gmail.com" "123456" Purpose.email_verification 500
    { id := 0, email := "a@gmail.com", otp := "123456",
      purpose := Purpose.email_verification, attempts := 3,
      expiresAt := 1000, verified := false, createdAt := 0 }
    rfl (by decide) (by decide)
  exact ⟨h.1, (h.2.2.2 (by decide) "123456" 600).2⟩

/-- Counterexample to C6 as stated: at the exact instant `now = expiresAt`
the code still treats the record as valid (`isExpired` uses a strict
comparison), so a verify with the correct code succeeds instead of failing
with the expired message. -/
theorem verifyOTP_at_expiry_instant_counterexample :
    (verifyOTP
        [{ id := 0, email := "a@gmail.com", otp := "123456",
           purpose := Purpose.password_reset, attempts := 0,
           expiresAt := 100, verified := false, createdAt := 0 }]
        "a@gmail.com" "123456" Purpose.password_reset 100).1.success = true ∧
    (verifyOTP
        [{ id := 0, email := "a@gmail.com", otp := "123456",
           purpose := Purpose.password_reset, attempts := 0,
           expiresAt := 100, verified := false, createdAt := 0 }]
        "a@gmail.com" "123456" Purpose.password_reset 100).1.message =
      "OTP verified successfully" := ⟨rfl, rfl⟩

/-- C6 amended: a verify call made strictly after `expiresAt`
(`now > expiresAt`, the comparison `isExpired` actually performs) deletes the
record and fails with the expired message; at `now = expiresAt` the record is
still accepted. -/
theorem verifyOTP_expired_deletes (store : OTPStore) (email code : String)
    (purpose : Purpose) (now : Nat) (r : OTPRecord)
    (hfind : latestUnverified store email purpose = some r)
    (hexp : now > r.expiresAt) :
    (verifyOTP store email code purpose now).1.success = false ∧
    (verifyOTP store email code purpose now).1.message =
      "OTP has expired. Please request a new one" ∧
    (verifyOTP store email code purpose now).2 = deleteOne store r := by
  have hisexp : isExpired r now = true := by
    simp [isExpired, hexp]
  have hv : verifyOTP store email code purpose now =
      ({ success := false,
         message := "OTP has expired. Please request a new one",
         attemptsRemaining := none }, deleteOne store r) := by
    unfold verifyOTP
    rw [hfind]
    simp [hisexp]
  exact ⟨by rw [hv], by rw [hv], by rw [hv]⟩

/-- Witness for the amended C6: one millisecond past `expiresAt` the correct
code is rejected as expired. -/
theorem verifyOTP_expired_deletes_witness :
    (verifyOTP
        [{ id := 0, email := "a@gmail.com", otp := "123456",
           purpose := Purpose.password_reset, attempts := 0,
           expiresAt := 100, verified := false, createdAt := 0 }]
        "a@gmail.com" "123456" Purpose.password_reset 101).1.success = false ∧
    (verifyOTP
        [{ id := 0, email := "a@gmail.com", otp := "123456",
           purpose := Purpose.password_reset, attempts := 0,
           expiresAt := 100, verified := false, createdAt := 0 }]
        "a@gmail.com" "123456" Purpose.password_reset 101).1.message =
      "OTP has expired. Please request a new one" := by
  have h := verifyOTP_expired_deletes
    [{ id := 0, email := "a@gmail.com", otp := "123456",
       purpose := Purpose.password_reset, attempts := 0,
       expiresAt := 100, verified := false, createdAt := 0 }]
    "a@gmail.com" "123456" Purpose.password_reset 101
    { id := 0, email := "a@gmail.com", otp := "123456",
      purpose := Purpose.password_reset, attempts := 0,
      expiresAt := 100, verified := false, createdAt := 0 }
    rfl (by decide)
  exact ⟨h.1, h.2.1⟩

/-- C9: in POST /signup/verify-otp the OTP is verified — and, when the
submitted code is correct, marked `verified = true` with `attempts`
incremented and saved — before the check that the email already belongs to a
verified user; so when that check answers 400 "Email already registered", the
correct OTP has nonetheless been consumed: the user collection is unchanged
but the OTP collection holds the record as verified, and (when the record was
the only unverified one for the pair) re-submitting the same code now
fails. -/
theorem signupVerifyOtp_consumes_otp_before_user_check
    (users : List UserRec) (otps : OTPStore)
    (name email password code : String) (hash : String → String)
    (newUserId now : Nat) (r : OTPRecord) (u : UserRec)
    (hname : name ≠ "") (hemail : email ≠ "") (hpw : password ≠ "")
    (hcode : code ≠ "")
    (hfind : latestUnverified otps (normalizeEmail email)
      Purpose.email_verification = some r)
    (hotp : r.otp = code)
    (hexp : ¬ now > r.expiresAt)
    (hatt : r.attempts < 3)
    (huser : findUser users (normalizeEmail email) = some u)
    (hver : u.isEmailVerified = true) :
    (signupVerifyOtp users otps name email password code hash
        newUserId now).1.status = 400 ∧
    (signupVerifyOtp users otps name email password code hash
        newUserId now).1.message = "Email already registered" ∧
    (signupVerifyOtp users otps name email password code hash
        newUserId now).2.1 = users ∧
    (signupVerifyOtp users otps name email password code hash
        newUserId now).2.2 =
      saveDoc otps { r with verified := true, attempts := r.attempts + 1 } ∧
    ((∀ x ∈ otps, otpMatches (normalizeEmail email) Purpose.email_verification x =
        true → x.id = r.id) →
      (verifyOTP (signupVerifyOtp users otps name email password code hash
          newUserId now).2.2 (normalizeEmail email) code
        Purpose.email_verification now).1.success = false) := by
  have hisexp : isExpired r now = false := by
    simp [isExpired, hexp]
  have hisatt : hasExceededAttempts r = false := by
    simp only [hasExceededAttempts, decide_eq_false_iff_not]
    omega
  have hveq : verifyOTP otps (normalizeEmail email) code
      Purpose.email_verification now =
      ({ success := true, message := "OTP verified successfully",
         attemptsRemaining := none },
       saveDoc otps { r with verified := true, attempts := r.attempts + 1 }) := by
    unfold verifyOTP
    rw [hfind]
    simp [hisexp, hisatt, hotp]
  have hs : signupVerifyOtp users otps name email password code hash
      newUserId now =
      ({ status := 400, message := "Email already registered",
         attemptsRemaining := none }, users,
       saveDoc otps { r with verified := true, attempts := r.attempts + 1 }) := by
    unfold signupVerifyOtp
    rw [if_neg (by simp [hname, hemail, hpw, hcode])]
    simp only [hveq, huser, hver]
    simp
  refine ⟨by rw [hs], by rw [hs], by rw [hs], by rw [hs], ?_⟩
  intro huniq
  have hm := (latestUnverified_mem hfind).2
  simp only [otpMatches, decide_eq_true_eq] at hm
  have hnone : latestUnverified (signupVerifyOtp users otps name email password
      code hash newUserId now).2.2 (normalizeEmail email)
      Purpose.email_verification = none := by
    apply latestUnverified_eq_none
    intro x hx
    rw [hs] at hx
    rcases mem_saveDoc hx with ⟨y, hy, hxy⟩
    by_cases hyid : y.id = r.id
    · rw [if_pos hyid] at hxy
      subst hxy
      simp [otpMatches]
    · rw [if_neg hyid] at hxy
      cases hb : otpMatches (normalizeEmail email) Purpose.email_verification x with
      | false => rfl
      | true =>
          have hxid : x.id = r.id := huniq x (by rw [hxy]; exact hy) hb
          rw [hxy] at hxid
          exact absurd hxid hyid
  rw [verifyOTP_of_none code now hnone]

/-- Witness for C9: a correct code together with an already-verified user
yields 400 yet a retry of the same code is rejected as already used. -/
theorem signupVerifyOtp_consumes_otp_witness :
    (signupVerifyOtp
        [{ id := 7, name := "Ada", email := "a@gmail.com", password := "h",
           isEmailVerified := true, isDeleted := false,
           passwordResetAt := none, failedLoginAttempts := 0,
           accountLockedUntil := none }]
        [{ id := 0, email := "a@gmail.com", otp := "123456",
           purpose := Purpose.email_verification, attempts := 0,
           expiresAt := 1000, verified := false, createdAt := 0 }]
        "Ada" "a@gmail.com" "Secret12" "123456" (fun s => s) 8
        500).1.status = 400 ∧
    (verifyOTP
        (signupVerifyOtp
          [{ id := 7, name := "Ada", email := "a@gmail.com", password := "h",
             isEmailVerified := true, isDeleted := false,
             passwordResetAt := none, failedLoginAttempts := 0,
             accountLockedUntil := none }]
          [{ id := 0, email := "a@gmail.com", otp := "123456",
             purpose := Purpose.email_verification, attempts := 0,
             expiresAt := 1000, verified := false, createdAt := 0 }]
          "Ada" "a@gmail.com" "Secret12" "123456" (fun s => s) 8 500).2.2
        "a@gmail.com" "123456" Purpose.email_verification 500).1.success =
      false := by
  have h := signupVerifyOtp_consumes_otp_before_user_check
    [{ id := 7, name := "Ada", email := "a@gmail.com", password := "h",
       isEmailVerified := true, isDeleted := false, passwordResetAt := none,
       failedLoginAttempts := 0, accountLockedUntil := none }]
    [{ id := 0, email := "a@gmail.com", otp := "123456",
       purpose := Purpose.email_verification, attempts := 0,
       expiresAt := 1000, verified := false, createdAt := 0 }]
    "Ada" "a@gmail.com" "Secret12" "123456" (fun s => s) 8 500
    { id := 0, email := "a@gmail.com", otp := "123456",
      purpose := Purpose.email_verification, attempts := 0,
      expiresAt := 1000, verified := false, createdAt := 0 }
    { id := 7, name := "Ada", email := "a@gmail.com", password := "h",
      isEmailVerified := true, isDeleted := false, passwordResetAt := none,
      failedLoginAttempts := 0, accountLockedUntil := none }
    (by decide) (by decide) (by decide) (by decide) rfl rfl (by decide)
    (by decide) rfl rfl
  exact ⟨h.1, h.2.2.2.2 (by decide)⟩

/-- C7: POST /reset-password accepts a reset credential only when its
signature and expiry are valid and its purpose tag is `password_reset`; any
credential carrying a different purpose tag (e.g. `email_verification`) is
rejected with 401 and no user state changes. -/
theorem resetPassword_purpose_scoped :
    (∀ (users : List UserRec) (secret : String) (tok : ResetToken)
        (newPassword : String) (hash : String → String) (now : Nat),
      tok.signedWith = secret → now < tok.exp →
      newPassword ≠ "" → isStrongPassword newPassword = true →
      tok.purpose ≠ "password_reset" →
      (resetPassword users secret (some tok) newPassword hash now).1.status =
          401 ∧
      (resetPassword users secret (some tok) newPassword hash
          now).1.message = "Invalid reset token" ∧
      (resetPassword users secret (some tok) newPassword hash now).2 =
        users) ∧
    (∀ (users : List UserRec) (secret : String) (tok : ResetToken)
        (newPassword : String) (hash : String → String) (now : Nat),
      (resetPassword users secret (some tok) newPassword hash now).1.status =
        200 →
      tok.signedWith = secret ∧ now < tok.exp ∧
        tok.purpose = "password_reset") := by
  constructor
  · intro users secret tok newPassword hash now hsig hnexp hne hstrong hpurp
    have hv : resetPassword users secret (some tok) newPassword hash now =
        ({ status := 401, message := "Invalid reset token" }, users) := by
      simp [resetPassword, jwtVerify, hne, hstrong, hsig, hnexp, hpurp]
    exact ⟨by rw [hv], by rw [hv], by rw [hv]⟩
  · intro users secret tok newPassword hash now h
    by_cases hne : newPassword = ""
    · exfalso
      simp [resetPassword, hne] at h
    by_cases hstrong : isStrongPassword newPassword = true
    · by_cases hc : tok.signedWith = secret ∧ now < tok.exp
      · by_cases hp : tok.purpose = "password_reset"
        · exact ⟨hc.1, hc.2, hp⟩
        · exfalso
          simp [resetPassword, jwtVerify, hne, hstrong, hc.1, hc.2, hp] at h
      · exfalso
        simp [resetPassword, jwtVerify, hne, hstrong, hc] at h
    · exfalso
      have hs2 : isStrongPassword newPassword = false := by
        simp only [Bool.not_eq_true] at hstrong
        exact hstrong
      simp [resetPassword, hne, hs2] at h

/-- Witness for C7: a signed, unexpired credential tagged
`email_verification` is rejected with 401 and leaves the user collection
untouched. -/
theorem resetPassword_purpose_scoped_witness :
    (resetPassword
        [{ id := 7, name := "Ada", email := "a@gmail.com", password := "h",
           isEmailVerified := true, isDeleted := false,
           passwordResetAt := none, failedLoginAttempts := 0,
           accountLockedUntil := none }]
        "secret"
        (some { email := "a@gmail.com", purpose := "email_verification",
                exp := 1000, signedWith := "secret" })
        "Abcdef12" (fun s => s) 500).1.status = 401 ∧
    (resetPassword
        [{ id := 7, name := "Ada", email := "a@gmail.com", password := "h",
           isEmailVerified := true, isDeleted := false,
           passwordResetAt := none, failedLoginAttempts := 0,
           accountLockedUntil := none }]
        "secret"
        (some { email := "a@gmail.com", purpose := "email_verification",
                exp := 1000, signedWith := "secret" })
        "Abcdef12" (fun s => s) 500).2 =
      [{ id := 7, name := "Ada", email := "a@gmail.com", password := "h",
         isEmailVerified := true, isDeleted := false,
         passwordResetAt := none, failedLoginAttempts := 0,
         accountLockedUntil := none }] := by
  have h := resetPassword_purpose_scoped.1
    [{ id := 7, name := "Ada", email := "a@gmail.com", password := "h",
       isEmailVerified := true, isDeleted := false, passwordResetAt := none,
       failedLoginAttempts := 0, accountLockedUntil := none }]
    "secret"
    { email := "a@gmail.com", purpose := "email_verification",
      exp := 1000, signedWith := "secret" }
    "Abcdef12" (fun s => s) 500
    rfl (by decide) (by decide) (by decide) (by decide)
  exact ⟨h.1, h.2.2⟩

theorem mapGet_mapSet_self (m : RateLimitMap) (key : String)
    (v : RateLimitRecord) : mapGet (mapSet m key v) key = some v := by
  unfold mapGet mapSet
  rw [List.find?_cons_of_pos _ (by simp)]
  rfl

theorem applyCalls_fill (key : String) (maxAttempts windowMs : Nat)
    (ts : List Nat) :
    ∀ (m : RateLimitMap) (c R : Nat),
      mapGet m key = some { count := c, resetTime := R } →
      (∀ t ∈ ts, t ≤ R) → c + ts.length ≤ maxAttempts →
      mapGet (applyCalls m key maxAttempts windowMs ts) key =
        some { count := c + ts.length, resetTime := R } := by
  induction ts with
  | nil =>
      intro m c R hget _ _
      simpa using hget
  | cons t ts ih =>
      intro m c R hget hle hcap
      have ht : ¬ t > R := by
        have := hle t (List.mem_cons_self t ts)
        omega
      have hlt : ¬ c ≥ maxAttempts := by
        simp only [List.length_cons] at hcap
        omega
      have hstep : (checkRateLimit m key maxAttempts windowMs t).2 =
          mapSet m key { count := c + 1, resetTime := R } := by
        unfold checkRateLimit
        rw [hget]
        simp [ht, hlt]
      have hnext := ih (mapSet m key { count := c + 1, resetTime := R })
        (c + 1) R (mapGet_mapSet_self _ _ _)
        (fun s hs => hle s (List.mem_cons_of_mem _ hs))
        (by simp only [List.length_cons] at hcap; omega)
      unfold applyCalls at hnext ⊢
      rw [List.foldl_cons, hstep]
      simpa [Nat.add_assoc, Nat.add_comm 1 ts.length] using hnext

/-- Counterexample to C5 as stated: at the exact boundary
`now = windowResetAt` the code keeps the old window (its comparison is the
strict `now > record.resetTime`), so a full window still rejects the call
instead of restarting with count 1 — here max = 1, window = 50, first call at
0, second call at `now = 50 = windowResetAt` is rejected. -/
theorem checkRateLimit_boundary_counterexample :
    (checkRateLimit
        (checkRateLimit [] "signup:a@gmail.com" 1 50 0).2
        "signup:a@gmail.com" 1 50 50).1.allowed = false := by decide

/-- C5 amended: (1) one `checkRateLimit` step never pushes the stored count
for the key above the maximum M (for M ≥ 1); (2) after a first call at t0 on
a key with no window and M−1 further calls all at times ≤ t0+W, the (M+1)-th
call at a time t ≤ t0+W is rejected and reports the minutes remaining until
reset, `ceil((t0+W−t)/60000)`; (3) a call made strictly after the stored
`windowResetAt` (`now > windowResetAt`, the comparison the code performs —
not `now ≥`) is allowed and restarts the window with count 1. -/
theorem checkRateLimit_spec :
    (∀ (m : RateLimitMap) (key : String) (M W now : Nat), 1 ≤ M →
      (∀ v, mapGet m key = some v → v.count ≤ M) →
      ∀ v, mapGet (checkRateLimit m key M W now).2 key = some v →
        v.count ≤ M) ∧
    (∀ (m : RateLimitMap) (key : String) (M W t0 t : Nat) (ts : List Nat),
      1 ≤ M → mapGet m key = none → ts.length = M - 1 →
      (∀ s ∈ ts, s ≤ t0 + W) → t ≤ t0 + W →
      (checkRateLimit (applyCalls (checkRateLimit m key M W t0).2 key M W ts)
          key M W t).1.allowed = false ∧
      (checkRateLimit (applyCalls (checkRateLimit m key M W t0).2 key M W ts)
          key M W t).1.resetIn = some ((t0 + W - t + 59999) / 60000)) ∧
    (∀ (m : RateLimitMap) (key : String) (M W now : Nat)
        (rec0 : RateLimitRecord),
      mapGet m key = some rec0 → now > rec0.resetTime →
      (checkRateLimit m key M W now).1.allowed = true ∧
      mapGet (checkRateLimit m key M W now).2 key =
        some { count := 1, resetTime := now + W }) := by
  refine ⟨?_, ?_, ?_⟩
  · intro m key M W now hM hinv v hv
    unfold checkRateLimit at hv
    cases hget : mapGet m key with
    | none =>
        rw [hget] at hv
        simp only at hv
        rw [mapGet_mapSet_self] at hv
        cases hv
        simpa using hM
    | some rec0 =>
        rw [hget] at hv
        simp only at hv
        by_cases ht : now > rec0.resetTime
        · rw [if_pos ht] at hv
          rw [mapGet_mapSet_self] at hv
          cases hv
          simpa using hM
        · rw [if_neg ht] at hv
          by_cases hcap : rec0.count ≥ M
          · rw [if_pos hcap] at hv
            exact hinv v hv
          · rw [if_neg hcap] at hv
            rw [mapGet_mapSet_self] at hv
            cases hv
            simp only
            omega
  · intro m key M W t0 t ts hM hnone hlen hle ht
    have hfirst : (checkRateLimit m key M W t0).2 =
        mapSet m key { count := 1, resetTime := t0 + W } := by
      unfold checkRateLimit
      rw [hnone]
    have hfill := applyCalls_fill key M W ts
      (mapSet m key { count := 1, resetTime := t0 + W }) 1 (t0 + W)
      (mapGet_mapSet_self _ _ _) hle (by omega)
    rw [hfirst]
    have hM' : 1 + ts.length = M := by omega
    rw [hM'] at hfill
    have htle : ¬ t > t0 + W := by omega
    constructor
    · unfold checkRateLimit
      rw [hfill]
      simp [htle]
    · unfold checkRateLimit
      rw [hfill]
      simp [htle]
  · intro m key M W now rec0 hget hnow
    have hv : checkRateLimit m key M W now =
        ({ allowed := true, remaining := (M : Int) - 1, resetIn := none },
         mapSet m key { count := 1, resetTime := now + W }) := by
      unfold checkRateLimit
      rw [hget]
      simp [hnow]
    exact ⟨by rw [hv], by rw [hv]; exact mapGet_mapSet_self _ _ _⟩

/-- Witness for the amended C5: with max 2 and a one-minute window starting
at 0, a third call at time 20 is rejected with one minute reported, and a
call one millisecond past the boundary restarts the window. -/
theorem checkRateLimit_spec_witness :
    ((checkRateLimit
        (applyCalls (checkRateLimit [] "login:a@gmail.com" 2 60000 0).2
          "login:a@gmail.com" 2 60000 [10])
        "login:a@gmail.com" 2 60000 20).1.allowed = false ∧
      (checkRateLimit
        (applyCalls (checkRateLimit [] "login:a@gmail.com" 2 60000 0).2
          "login:a@gmail.com" 2 60000 [10])
        "login:a@gmail.com" 2 60000 20).1.resetIn = some 1) ∧
    (checkRateLimit [("k", { count := 2, resetTime := 100 })] "k" 2 50
        101).1.allowed = true := by
  constructor
  · have h := checkRateLimit_spec.2.1 [] "login:a@gmail.com" 2 60000 0 20 [10]
      (by decide) rfl rfl (by decide) (by decide)
    exact ⟨h.1, h.2⟩
  · exact (checkRateLimit_spec.2.2 [("k", { count := 2, resetTime := 100 })]
      "k" 2 50 101 { count := 2, resetTime := 100 } rfl (by decide)).1

/-- Counterexample to C1 as stated: in POST /resend-otp an email-send failure
is not compensated — the handler still answers 200 "OTP sent successfully"
and the just-created OTP record stays in the store. -/
theorem resendOtp_email_failure_counterexample :
    (resendOtpIssue [] "a@gmail.com" "123456" Purpose.email_verification 0 0
        false).1.status = 200 ∧
    (resendOtpIssue [] "a@gmail.com" "123456" Purpose.email_verification 0 0
        false).1.message = "OTP sent successfully" ∧
    ({ id := 0, email := "a@gmail.com", otp := "123456",
       purpose := Purpose.email_verification, attempts := 0,
       expiresAt := 60000, verified := false, createdAt := 0 } : OTPRecord) ∈
      (resendOtpIssue [] "a@gmail.com" "123456" Purpose.email_verification 0 0
        false).2 := by
  refine ⟨rfl, rfl, ?_⟩
  simp [resendOtpIssue, createOTP, deleteManyUnverified]

/-- C1 amended: only POST /signup/request-otp rolls back on email-send
failure (500, and no record with the new id remains); POST /resend-otp and
POST /forgot-password/request-otp leave the just-created record in the store
and still report success (200), and the login auto-resend leaves the record
in the store and returns its usual 403 verification-required response. -/
theorem emailSendFailure_rollback_only_in_signup :
    (∀ (store : OTPStore) (email code : String) (newId now : Nat),
      (signupRequestOtpIssue store email code newId now false).1.status =
          500 ∧
      (∀ x ∈ (signupRequestOtpIssue store email code newId now false).2,
        x.id ≠ newId)) ∧
    (∀ (store : OTPStore) (email code : String) (purpose : Purpose)
        (newId now : Nat),
      (resendOtpIssue store email code purpose newId now false).1.status =
          200 ∧
      (createOTP store email purpose 1 code newId now).1 ∈
        (resendOtpIssue store email code purpose newId now false).2) ∧
    (∀ (store : OTPStore) (email code : String) (newId now : Nat),
      (forgotPasswordRequestOtpIssue store email code newId now
          false).1.status = 200 ∧
      (createOTP store email Purpose.password_reset 1 code newId now).1 ∈
        (forgotPasswordRequestOtpIssue store email code newId now false).2) ∧
    (∀ (store : OTPStore) (email code : String) (newId now : Nat),
      (loginUnverifiedResend store email code newId now false).1.status =
          403 ∧
      (createOTP store email Purpose.email_verification 10 code newId now).1 ∈
        (loginUnverifiedResend store email code newId now false).2) := by
  refine ⟨?_, ?_, ?_, ?_⟩
  · intro store email code newId now
    refine ⟨rfl, ?_⟩
    intro x hx
    have hx2 : x ∈ deleteOne
        (createOTP store email Purpose.email_verification 1 code newId now).2
        (createOTP store email Purpose.email_verification 1 code newId
          now).1 := hx
    exact (mem_deleteOne.1 hx2).2
  · intro store email code purpose newId now
    refine ⟨rfl, ?_⟩
    show _ ∈ (createOTP store email purpose 1 code newId now).2
    rw [createOTP_snd]
    exact List.mem_append_right _ (List.mem_cons_self _ _)
  · intro store email code newId now
    refine ⟨rfl, ?_⟩
    show _ ∈ (createOTP store email Purpose.password_reset 1 code newId now).2
    rw [createOTP_snd]
    exact List.mem_append_right _ (List.mem_cons_self _ _)
  · intro store email code newId now
    refine ⟨rfl, ?_⟩
    show _ ∈
      (createOTP store email Purpose.email_verification 10 code newId now).2
    rw [createOTP_snd]
    exact List.mem_append_right _ (List.mem_cons_self _ _)

/-- Witness for the amended C1 at a concrete store: the signup handler rolls
the new record back with 500 while the resend handler keeps it with 200. -/
theorem emailSendFailure_rollback_witness :
    ((signupRequestOtpIssue [] "a@gmail.com" "111111" 3 0 false).1.status =
        500 ∧
      (∀ x ∈ (signupRequestOtpIssue [] "a@gmail.com" "111111" 3 0 false).2,
        x.id ≠ 3)) ∧
    ((resendOtpIssue [] "a@gmail.com" "222222" Purpose.password_reset 4 0
          false).1.status = 200 ∧
      (createOTP [] "a@gmail.com" Purpose.password_reset 1 "222222" 4 0).1 ∈
        (resendOtpIssue [] "a@gmail.com" "222222" Purpose.password_reset 4 0
          false).2) :=
  ⟨emailSendFailure_rollback_only_in_signup.1 [] "a@gmail.com" "111111" 3 0,
   emailSendFailure_rollback_only_in_signup.2.1 [] "a@gmail.com" "222222"
     Purpose.password_reset 4 0⟩

/-- C8: the code that generates the numeric OTP draws from `Math.random`,
the general-purpose PRNG — not from a cryptographically strong source. -/
theorem generateOTP_uses_mathRandom :
    generateOTPSource = RandomSource.mathRandom ∧
    generateOTPSource ≠ RandomSource.cryptoRandom :=
  ⟨rfl, by decide⟩

theorem toDigitsCore_length_digits :
    ∀ (f n : Nat) (l : List Char), 0 < n → n ≤ f →
      (Nat.toDigitsCore 10 f n l).length =
        (Nat.digits 10 n).length + l.length := by
  intro f
  induction f with
  | zero =>
      intro n l hn hf
      omega
  | succ f ih =>
      intro n l hn hf
      simp only [Nat.toDigitsCore]
      by_cases hdiv : n / 10 = 0
      · rw [if_pos hdiv]
        rw [Nat.digits_def' (by norm_num : (1:Nat) < 10) hn, hdiv]
        simp
        omega
      · rw [if_neg hdiv]
        have hn' : 0 < n / 10 := Nat.pos_of_ne_zero hdiv
        have hlt := Nat.div_lt_self hn (by norm_num : 1 < 10)
        rw [ih (n / 10) (Nat.digitChar (n % 10) :: l) hn' (by omega)]
        rw [Nat.digits_def' (by norm_num : (1:Nat) < 10) hn]
        simp
        omega

theorem repr_length_eq_digits_length (n : Nat) (hn : 0 < n) :
    (Nat.repr n).length = (Nat.digits 10 n).length := by
  have h := toDigitsCore_length_digits (n + 1) n [] hn (Nat.le_succ n)
  simpa [Nat.repr, Nat.toDigits, List.asString, String.length] using h

/-- C10: whenever `Math.random()` yields a value in `[0,1)`, the generated
code is a 6-character decimal string whose numeric value lies in
[100000, 999999]; its decimal expansion has exactly 6 digits and its most
significant digit is nonzero (no leading zero). -/
theorem generateOTP_six_decimal_digits (rnd : ℚ) (h0 : 0 ≤ rnd)
    (h1 : rnd < 1) :
    100000 ≤ generateOTPVal rnd ∧ generateOTPVal rnd ≤ 999999 ∧
    (generateOTPStr rnd).length = 6 ∧
    (Nat.digits 10 (generateOTPVal rnd)).length = 6 ∧
    (Nat.digits 10 (generateOTPVal rnd)).getLast?.getD 1 ≠ 0 := by
  have hx1 : (100000 : ℚ) ≤ 100000 + rnd * 900000 := by
    have := mul_nonneg h0 (by norm_num : (0:ℚ) ≤ 900000)
    linarith
  have hx2 : (100000 : ℚ) + rnd * 900000 < 1000000 := by
    have := mul_lt_mul_of_pos_right h1 (by norm_num : (0:ℚ) < 900000)
    linarith
  have hf1 : (100000 : ℤ) ≤ Int.floor ((100000 : ℚ) + rnd * 900000) :=
    Int.le_floor.mpr (by exact_mod_cast hx1)
  have hf2 : Int.floor ((100000 : ℚ) + rnd * 900000) < 1000000 :=
    Int.floor_lt.mpr (by exact_mod_cast hx2)
  have hlo : 100000 ≤ generateOTPVal rnd := by
    unfold generateOTPVal
    omega
  have hhi : generateOTPVal rnd ≤ 999999 := by
    unfold generateOTPVal
    omega
  have hpos : generateOTPVal rnd ≠ 0 := by omega
  have hlog : Nat.log 10 (generateOTPVal rnd) = 5 :=
    Nat.log_eq_of_pow_le_of_lt_pow (by norm_num; omega) (by norm_num; omega)
  have hlen : (Nat.digits 10 (generateOTPVal rnd)).length = 6 := by
    rw [Nat.digits_len 10 _ (by norm_num) hpos, hlog]
  refine ⟨hlo, hhi, ?_, hlen, ?_⟩
  · rw [generateOTPStr, repr_length_eq_digits_length _ (by omega), hlen]
  · have hne : Nat.digits 10 (generateOTPVal rnd) ≠ [] :=
      Nat.digits_ne_nil_iff_ne_zero.mpr hpos
    rw [List.getLast?_eq_getLast _ hne]
    simpa using Nat.getLast_digit_ne_zero 10 hpos

/-- Witness for C10 at `Math.random() = 1/2` (where the generated value is
550000). -/
theorem generateOTP_six_decimal_digits_witness :
    100000 ≤ generateOTPVal (1 / 2) ∧ generateOTPVal (1 / 2) ≤ 999999 ∧
    (generateOTPStr (1 / 2)).length = 6 ∧
    (Nat.digits 10 (generateOTPVal (1 / 2))).length = 6 ∧
    (Nat.digits 10 (generateOTPVal (1 / 2))).getLast?.getD 1 ≠ 0 :=
  generateOTP_six_decimal_digits (1 / 2) one_half_pos.le one_half_lt_one

end MealVista
